import Mathlib

/-!
Verification development for the Sweeper resource sweep tool (Sweeper.py).

The program iterates profile → check → region, queries a cloud inventory API,
filters the returned items with a per-check predicate and appends report lines
to a buffer.  Each Lean definition below shallowly embeds one piece of the
source: pure filters become Lean functions, the report buffer becomes an
explicit list of lines/events, API calls become an environment parameter, and
exceptions (ClientError, ProfileNotFound, IOError, YAMLError, sys.exit) become
explicit sum types.
-/

namespace Sweeper

/-- The fixed line appended after a caught ClientError in every check
(`"Your AWS profile does not have access. Please fix this and try again\n"`). -/
def accessDeniedMsg : String := "Your AWS profile does not have access. Please fix this and try again\n"

/-- The separator line the checks print (58 equals signs). -/
def sepLine : String := String.mk (List.replicate 58 '=')

/-- The line of 20 asterisks printed at the very end of the run. -/
def starLine : String := String.mk (List.replicate 20 '*')

/-- Every `except ClientError` handler first calls `self.output(err)` with the
ClientError exception *object* (lines 208, 228, 281, 299, 318, 364, 398).
When `-o` is selected, `output` executes `self.message += string` (line 186)
on that non-string and Python raises this uncaught TypeError: nothing is
appended and the whole run aborts.  On screen output `print(err)` prints the
error's text and execution continues. -/
def clientErrorTypeError : String :=
  "TypeError: can only concatenate str (not \x22ClientError\x22) to str"


/-- Result of one provider API call: either the parsed response payload or a
`botocore.exceptions.ClientError` (authorization / permission failure). -/
inductive ApiResult (α : Type) where
  | ok (val : α)
  | clientError (msg : String)
deriving DecidableEq

/-! ## Detailed per-check embeddings (data level) -/

/-- One entry of `response['LoadBalancerDescriptions']` as used by `check_elbs`:
the name and the `Instances` list. -/
structure Elb where
  LoadBalancerName : String
  Instances : List String
deriving DecidableEq

/-- The inner item loop of `check_elbs` (lines 202-204): one report line per
ELB whose `Instances` list is empty. -/
def elbLines : List Elb → List String
  | [] => []
  | elb :: rest =>
    (if elb.Instances = [] then [s!"{elb.LoadBalancerName} does not have any instances attached"] else [])
      ++ elbLines rest

/-- `check_elbs` (lines 191-209).  `env region` is the outcome of
`client.describe_load_balancers()` in that region.  The `try` wraps the whole
region loop, so a ClientError ends the loop.  The handler's `self.output(err)`
receives the ClientError object: with `output_file = true` the buffered append
raises `clientErrorTypeError` uncaught (second component `some`; nothing after
the banners is appended and the run dies); on screen output the error text and
`accessDeniedMsg` are printed and the run continues.  (`create_client`
precedes the banner lines; it emits nothing on success.) -/
def check_elbs (output_file : Bool) (env : String → ApiResult (List Elb)) :
    List String → List String × Option String
  | [] => ([], none)
  | region :: rest =>
    let banners :=
      [s!"\nChecking for orphaned ELB\x27s in {region}",
       "This sweep looks for ELB\x27s without any attached instances.",
       sepLine]
    match env region with
    | .clientError msg =>
      if output_file then (banners, some clientErrorTypeError)
      else (banners ++ [msg, accessDeniedMsg], none)
    | .ok elbs =>
      match check_elbs output_file env rest with
      | (restLines, crash) =>
        (banners ++ elbLines elbs ++ s!"ELB sweep in {region} complete" ::
          "All configured regions checked for orphaned ELB\x27s" :: restLines, crash)

/-- One entry of `response['Volumes']` as used by `check_ebs_volumes`:
the `VolumeId` and the `Attachments` list. -/
structure Volume where
  VolumeId : String
  Attachments : List String
deriving DecidableEq

/-- The inner item loop of `check_ebs_volumes` (lines 222-224): one report line
per volume whose `Attachments` list is empty. -/
def volumeLines : List Volume → List String
  | [] => []
  | volume :: rest =>
    (if volume.Attachments = [] then [s!"{volume.VolumeId} does not have any attachments"] else [])
      ++ volumeLines rest

/-- `check_ebs_volumes` (lines 211-229).  Structure and error handling as in
`check_elbs`, with the banner printed before the client is created and the
query issued. -/
def check_ebs_volumes (output_file : Bool) (env : String → ApiResult (List Volume)) :
    List String → List String × Option String
  | [] => ([], none)
  | region :: rest =>
    let banners := [s!"\nChecking for unattached EBS Volumes in {region}", sepLine]
    match env region with
    | .clientError msg =>
      if output_file then (banners, some clientErrorTypeError)
      else (banners ++ [msg, accessDeniedMsg], none)
    | .ok volumes =>
      match check_ebs_volumes output_file env rest with
      | (restLines, crash) =>
        (banners ++ volumeLines volumes ++ s!"Volume sweep in {region} complete" ::
          "All configured regions checked for unattached EBS volumes" :: restLines, crash)

/-- One entry of `response['Addresses']` as used by `check_eips`: the
`PublicIp` and the optional `InstanceId` key (`none` models the key being
absent from the address dictionary). -/
structure Address where
  PublicIp : String
  InstanceId : Option String
deriving DecidableEq

/-- The inner item loop of `check_eips` (lines 294-296): one report line per
address whose dictionary has no `InstanceId` key. -/
def addressLines : List Address → List String
  | [] => []
  | address :: rest =>
    (if address.InstanceId = none then [s!"{address.PublicIp} is not attached to any instance."] else [])
      ++ addressLines rest

/-! ### Snapshot / image matching (`check_snapshots`, lines 262-275) -/

/-- `mapping['Ebs']`: the optional `SnapshotId` key of an Ebs entry. -/
structure EbsRef where
  SnapshotId : Option String
deriving DecidableEq

/-- One element of `image['BlockDeviceMappings']`: the optional `Ebs` key. -/
structure BlockDeviceMapping where
  Ebs : Option EbsRef
deriving DecidableEq

/-- One entry of `images['Images']`: the optional `BlockDeviceMappings` key. -/
structure Image where
  BlockDeviceMappings : Option (List BlockDeviceMapping)
deriving DecidableEq

/-- One entry of `snapshots['Snapshots']`: its `SnapshotId`. -/
structure Snapshot where
  SnapshotId : String
deriving DecidableEq

/-- The nested `if` chain of lines 268-270: the mapping has an `Ebs` key, the
Ebs entry has a `SnapshotId` key, and that id equals the snapshot's id. -/
def mappingMatches (sid : String) (m : BlockDeviceMapping) : Bool :=
  match m.Ebs with
  | some e =>
    match e.SnapshotId with
    | some s => s == sid
    | none => false
  | none => false

/-- The `for mapping in image['BlockDeviceMappings']` loop (lines 267-272):
on a match, `snapshot_found = True; break`; otherwise the accumulator
`found` is left as it was. -/
def scanMappings (sid : String) (found : Bool) : List BlockDeviceMapping → Bool
  | [] => found
  | m :: rest => if mappingMatches sid m then true else scanMappings sid found rest

/-- The `for image in images['Images']` loop (lines 265-272): the inner break
only leaves the mapping loop, the image loop keeps running, and
`snapshot_found` is never reset. -/
def scanImages (sid : String) (found : Bool) : List Image → Bool
  | [] => found
  | img :: rest =>
    scanImages sid
      (match img.BlockDeviceMappings with
       | some ms => scanMappings sid found ms
       | none => found) rest

/-- The `for snapshot in snapshots['Snapshots']` loop (lines 262-274):
collects `snapshot_id` into `snapshot_list` whenever `snapshot_found`
ends up `False`. -/
def collectOrphanSnapshots (images : List Image) : List Snapshot → List String
  | [] => []
  | s :: rest =>
    if scanImages s.SnapshotId false images then collectOrphanSnapshots images rest
    else s.SnapshotId :: collectOrphanSnapshots images rest

/-- Declarative form of "some available image's block-device mappings contain
an Ebs entry whose SnapshotId equals `sid`" (the predicate the spec states for
the snapshot check). -/
def referencedByImages (images : List Image) (sid : String) : Bool :=
  images.any fun img =>
    match img.BlockDeviceMappings with
    | some ms => ms.any (mappingMatches sid)
    | none => false

/-! ### Pagination helper of `check_rds_snapshots` (`get_data`, lines 371-378) -/

/-- One paginated API response: the list stored under the requested result key
(`DBSnapshots` / `DBInstances`) and the optional continuation `Marker`. -/
structure PageResponse where
  items : List String
  marker : Option String
deriving DecidableEq

/-- The first argument of `get_data`.  The initial call passes a bound listing
method (`client.describe_db_snapshots` / `client.describe_db_instances`); the
recursive call in the source passes the bare `client` object, which is not
callable. -/
inductive Fetchable where
  | method (pages : Option String → PageResponse)
  | clientObject

/-- `function(Marker=marker)` / `function()` (lines 372-375): invoking a bound
listing method returns the next page; invoking the bare client object raises
`TypeError` (a botocore client is not callable), which nothing catches. -/
def callFetch : Fetchable → Option String → Except String PageResponse
  | .method pages, m => .ok (pages m)
  | .clientObject, _ => .error "TypeError: client object is not callable"

/-- `get_data` (lines 371-378), faithful to the source: when the response
carries a `Marker`, the recursive call is `get_data(client, key,
response['Marker'])` — it passes `client`, not `function`.  `fuel` bounds the
recursion depth (Python has no structural argument here). -/
def get_data (fn : Fetchable) (marker : Option String) : Nat → Except String (List String)
  | 0 => .error "RecursionError"
  | fuel + 1 =>
    match callFetch fn marker with
    | .error e => .error e
    | .ok response =>
      match response.marker with
      | some m =>
        match get_data .clientObject (some m) fuel with
        | .error e => .error e
        | .ok rest => .ok (response.items ++ rest)
      | none => .ok response.items

/-- Modelled from the spec: the pagination accumulation the spec describes for
`get_data` — "the remaining pages are fetched by re-invoking the same listing
function with that Marker and appended".  Identical to `get_data` except that
the recursion re-invokes the listing function. -/
def get_data_spec (pages : Option String → PageResponse) (marker : Option String) :
    Nat → Except String (List String)
  | 0 => .error "RecursionError"
  | fuel + 1 =>
    let response := pages marker
    match response.marker with
    | some m =>
      match get_data_spec pages (some m) fuel with
      | .error e => .error e
      | .ok rest => .ok (response.items ++ rest)
    | none => .ok response.items

/-! ## Configuration loading (`load_file`, lines 137-166) -/

/-- The keys `load_file` reads from the parsed YAML document.  `none` models a
missing key; `some []` a key mapped to an empty (falsy) sequence. -/
structure Params where
  regions_to_exclude : Option (List String)
  checks_to_exclude : Option (List String)
  profiles : Option (List String)
deriving DecidableEq

/-- The instance fields `load_file` and `set_profile` read and update:
`self.regions`, `self.checks_to_exclude`, `self.profile_list`. -/
structure ConfigState where
  regions : List String
  checks_to_exclude : List String
  profile_list : List String
deriving DecidableEq

/-- The defaults set in `__init__` (lines 53-72): the fixed 14-region list,
no excluded checks, no profiles. -/
def initialState : ConfigState :=
  { regions :=
      ["us-east-1", "us-east-2", "us-west-1", "us-west-2", "ca-central-1",
       "ap-south-1", "ap-northeast-1", "ap-northeast-2", "ap-southeast-1",
       "ap-southeast-2", "eu-central-1", "eu-west-1", "eu-west-2", "sa-east-1"]
    checks_to_exclude := []
    profile_list := [] }

/-- Contents of one file on disk as seen by `load_file`: it parses as YAML or
raises `yaml.YAMLError`.  A missing path is modelled by the file-system map
returning `none` (IOError on `open`). -/
inductive FileContent where
  | parsed (p : Params)
  | yamlError (msg : String)
deriving DecidableEq

/-- Outcome of `load_file`: the updated state (plus any WARN lines printed), or
`sys.exit(1)` after printing diagnostics. -/
inductive LoadResult where
  | ok (printed : List String) (st : ConfigState)
  | exit1 (printed : List String)
deriving DecidableEq

/-- The `for region in params['regions_to_exclude']` loop (lines 146-148):
each listed region is removed from `self.regions` when present. -/
def removeExcluded (regions : List String) : List String → List String
  | [] => regions
  | r :: rest => removeExcluded (if r ∈ regions then regions.erase r else regions) rest

/-- The body of the `try` in `load_file` (lines 144-154): the three guarded
updates (`'key' in params and params['key']` — key present and non-empty
sequence).  Each update touches its own field, so they are stated
field-wise. -/
def applyParams (st : ConfigState) (p : Params) : ConfigState :=
  { regions :=
      match p.regions_to_exclude with
      | some l => if l ≠ [] then removeExcluded st.regions l else st.regions
      | none => st.regions
    checks_to_exclude :=
      match p.checks_to_exclude with
      | some l => if l ≠ [] then l else st.checks_to_exclude
      | none => st.checks_to_exclude
    profile_list :=
      match p.profiles with
      | some l => if l ≠ [] then l else st.profile_list
      | none => st.profile_list }

/-- `load_file` (lines 137-166).  `fs` maps a path to its contents (`none` =
IOError on `open`).  On IOError the file falls back to `./config.yml`: the
recursive `self.load_file()` call of line 163 is inlined here — it is only
reached when `os.path.isfile('./config.yml')` holds, so the inlined copy's own
IOError branch is unreachable and omitted. -/
def load_file (fs : String → Option FileContent) (st : ConfigState) (loc : String) : LoadResult :=
  match fs loc with
  | some (.parsed p) => .ok [] (applyParams st p)
  | some (.yamlError msg) => .exit1 [msg]
  | none =>
    match fs "./config.yml" with
    | some (.parsed p) =>
      .ok [s!"WARN: {loc} not found, loading default"] (applyParams st p)
    | some (.yamlError msg) =>
      .exit1 [s!"WARN: {loc} not found, loading default", msg]
    | none =>
      .exit1 [s!"WARN: {loc} not found, loading default",
              "ERROR: Default config.yml cannot be found. Exiting"]

/-! ## Profile resolution (`set_profile`, lines 99-135) -/

/-- The command-line options dictionary (`OPTS`): the values of `-p`, `-c`,
`-o` when present. -/
structure SPArgs where
  p : Option String
  c : Option String
  o : Option String
deriving DecidableEq

/-- The ambient context `set_profile` consults: the two AWS environment
variables and whether `~/.aws/credentials` opens without IOError. -/
structure Environ where
  hasAccessKeyId : Bool
  hasSecretAccessKey : Bool
  credsFileExists : Bool
deriving DecidableEq

/-- Outcome of `set_profile`: the resolved profile list (plus printed lines),
or `sys.exit(1)` after printing diagnostics. -/
inductive SPResult where
  | ok (printed : List String) (profiles : List String)
  | exit1 (printed : List String)
deriving DecidableEq

/-- Python `"{}".format(list_of_str)` as used by the INFO line of line 126. -/
def pyListRepr (l : List String) : String :=
  "[" ++ String.intercalate ", " (l.map fun s => "\x27" ++ s ++ "\x27") ++ "]"

/-- Python `str.split(',')`: split at every comma, keeping empty pieces. -/
def splitCommasAux (acc : List Char) : List Char → List String
  | [] => [String.mk acc.reverse]
  | c :: rest =>
    if c = ',' then String.mk acc.reverse :: splitCommasAux [] rest
    else splitCommasAux (c :: acc) rest

/-- `str(args['-p']).split(',')` of line 115. -/
def pySplitComma (s : String) : List String := splitCommasAux [] s.data

/-- `set_profile` (lines 99-135).  `profile_list` is the list already loaded
from the configuration file. -/
def set_profile (env : Environ) (args : SPArgs) (profile_list : List String) : SPResult :=
  match args.p with
  | some pstr =>
    let warn := if profile_list ≠ [] then ["WARN: Overriding profiles found in config.yml"] else []
    if env.credsFileExists then
      .ok warn (if pstr.data.contains ',' then pySplitComma pstr else [pstr])
    else
      .exit1 (warn ++ ["ERROR: AWS Credentials file not found. Please run \x27aws configure\x27 first"])
  | none =>
    if profile_list ≠ [] then
      let config_file := match args.c with | some c => c | none => "config.yml"
      .ok [s!"INFO: Using profiles found in {config_file}: {pyListRepr profile_list}"] profile_list
    else if env.hasAccessKeyId && env.hasSecretAccessKey then
      .ok ["INFO: Using AWS environment variables for the current session"] []
    else
      .exit1 ["ERROR: Unable to authenticate with AWS",
              " Either run \x27aws configure\x27, set your AWS Environment Variables",
              " Or set some profiles to run against in the config file or cmd line"]

/-! ## Dispatch model (`run_checks`, lines 401-428, and the shared region-loop
shape of the seven check functions)

Every check function has the same control skeleton: a `try` around a
`for region in self.regions` loop; per region it creates a client (which can
raise `ProfileNotFound`), prints banner lines, issues the describe query
(which can raise `ClientError`), prints one line per matching item and the
completion lines; `except ClientError` prints the error plus `accessDeniedMsg`
and ends the loop.  The model below embeds that skeleton once
(`regionSweep`), instantiated per check with its actual banner and completion
strings; the per-region item lines (the filter output verified at data level
above) are supplied by the environment.  Events record each emitted line and
each issued query, tagged with the check function that produced them. -/

/-- The seven check functions, in the order `run_checks` invokes them. -/
inductive CheckName where
  | elb
  | ebsVolumes
  | ebsSnapshots
  | ec2Eips
  | elasticBeanstalk
  | opsworks
  | rdsSnapshots
deriving DecidableEq

/-- An observable step: a describe query issued against a region, or a report
line passed to `self.output`. -/
inductive EvBody where
  | query (service : String) (region : String)
  | line (text : String)
deriving DecidableEq

/-- An event tagged with the check function it came from (`none` for lines
printed by `run_checks` itself). -/
structure Event where
  tag : Option CheckName
  body : EvBody
deriving DecidableEq

/-- Environment of a run: which profile names resolve against the credentials
store (`ProfileNotFound` otherwise), and each check's per-region response —
the item lines its filter emits, or a ClientError. -/
structure DispatchEnv where
  creds : String → Bool
  items : CheckName → String → String → ApiResult (List String)

/-- Report lines emitted by check `c`. -/
def tagLines (c : CheckName) (ls : List String) : List Event :=
  ls.map fun s => ⟨some c, .line s⟩

/-- `create_client` (lines 168-179) raises `ProfileNotFound` exactly when a
non-empty current profile is set and the session cannot resolve it. -/
def profileMissing (env : DispatchEnv) (profile : String) : Bool :=
  profile != "" && !env.creds profile

/-- The service name each check passes to `create_client`. -/
def serviceOf : CheckName → String
  | .elb => "elb"
  | .ebsVolumes => "ec2"
  | .ebsSnapshots => "ec2"
  | .ec2Eips => "ec2"
  | .elasticBeanstalk => "elasticbeanstalk"
  | .opsworks => "opsworks"
  | .rdsSnapshots => "rds"

/-- How a check's region loop can end before exhausting its regions:
`ProfileNotFound` escapes the check and is caught by `run_checks` per
profile; the TypeError raised by the ClientError handler's buffered append
(`-o` mode, see `clientErrorTypeError`) is caught nowhere and kills the
run. -/
inductive SweepAbort where
  | profileNotFound
  | typeError (msg : String)
deriving DecidableEq

/-- The shared region loop.  `clientFirst` records whether `create_client`
precedes the banner lines (true only for `check_elbs`); it matters only when
`ProfileNotFound` aborts the loop, fixing which banner lines were already
emitted.  On success the banners, the query, the item lines and the
completion lines are emitted and the loop continues.  On ClientError the
handler runs `self.output(err)` with the exception object: with
`output_file = true` that append raises an uncaught TypeError — the error and
access lines are never appended and the run aborts; on screen output the
error text and `accessDeniedMsg` are printed and only this check's region
loop ends. -/
def regionSweep (env : DispatchEnv) (c : CheckName) (output_file : Bool) (profile : String)
    (clientFirst : Bool) (banner : String → List String) (completion : String → List String) :
    List String → List Event × Option SweepAbort
  | [] => ([], none)
  | region :: rest =>
    let bannerEvs := tagLines c (banner region)
    if profileMissing env profile then
      (if clientFirst then [] else bannerEvs, some .profileNotFound)
    else
      match env.items c profile region with
      | .clientError msg =>
        if output_file then
          (bannerEvs ++ [⟨some c, .query (serviceOf c) region⟩],
           some (.typeError clientErrorTypeError))
        else
          (bannerEvs ++ ⟨some c, .query (serviceOf c) region⟩ ::
             tagLines c [msg, accessDeniedMsg],
           none)
      | .ok itemLines =>
        match regionSweep env c output_file profile clientFirst banner completion rest with
        | (restEvs, ab) =>
          (bannerEvs ++ ⟨some c, .query (serviceOf c) region⟩ ::
             (tagLines c (itemLines ++ completion region) ++ restEvs),
           ab)

/-- `check_elbs` (lines 191-209) at dispatch level. -/
def check_elbs_d (env : DispatchEnv) (output_file : Bool) (profile : String)
    (regions : List String) : List Event × Option SweepAbort :=
  regionSweep env .elb output_file profile true
    (fun r => [s!"\nChecking for orphaned ELB\x27s in {r}",
               "This sweep looks for ELB\x27s without any attached instances.",
               sepLine])
    (fun r => [s!"ELB sweep in {r} complete",
               "All configured regions checked for orphaned ELB\x27s"])
    regions

/-- `check_ebs_volumes` (lines 211-229) at dispatch level. -/
def check_ebs_volumes_d (env : DispatchEnv) (output_file : Bool) (profile : String)
    (regions : List String) : List Event × Option SweepAbort :=
  regionSweep env .ebsVolumes output_file profile false
    (fun r => [s!"\nChecking for unattached EBS Volumes in {r}",
               sepLine])
    (fun r => [s!"Volume sweep in {r} complete",
               "All configured regions checked for unattached EBS volumes"])
    regions

/-- `check_snapshots` (lines 231-282) at dispatch level; its count line and
optional per-snapshot id lines are part of the environment-supplied item
lines. -/
def check_snapshots_d (env : DispatchEnv) (output_file : Bool) (profile : String)
    (regions : List String) : List Event × Option SweepAbort :=
  regionSweep env .ebsSnapshots output_file profile false
    (fun r => [s!"\nChecking for unused snapshots in {r}",
               "**WARNING: This can take a long time. Please use with caution**",
               sepLine])
    (fun r => [s!"Snapshot sweep complete in {r}"])
    regions

/-- `check_eips` (lines 284-300) at dispatch level. -/
def check_eips_d (env : DispatchEnv) (output_file : Bool) (profile : String)
    (regions : List String) : List Event × Option SweepAbort :=
  regionSweep env .ec2Eips output_file profile false
    (fun r => [s!"\nChecking for unattached EIP\x27s in {r}",
               sepLine])
    (fun r => [s!"EIP sweep complete in {r}"])
    regions

/-- `check_beanstalk_environments` (lines 302-319) at dispatch level. -/
def check_beanstalk_environments_d (env : DispatchEnv) (output_file : Bool) (profile : String)
    (regions : List String) : List Event × Option SweepAbort :=
  regionSweep env .elasticBeanstalk output_file profile false
    (fun r => [s!"\nChecking for Beanstalk environments still running in {r}",
               "This checks for environments which will keep services running at a cost",
               sepLine])
    (fun r => [s!"ElasticBeanstalk sweep complete in {r}"])
    regions

/-- `check_opsworks` (lines 321-365) at dispatch level; the per-stack
sub-resource count lines are part of the environment-supplied item lines. -/
def check_opsworks_d (env : DispatchEnv) (output_file : Bool) (profile : String)
    (regions : List String) : List Event × Option SweepAbort :=
  regionSweep env .opsworks output_file profile false
    (fun r => [s!"\nChecking for Opsworks provisioned resources in {r}",
               "Opsworks has self-healing functionality that potentially could have",
               "healed a service that you destroyed elsewhere.",
               sepLine])
    (fun r => [s!"Opsworks sweep complete in {r}"])
    regions

/-- `check_rds_snapshots` (lines 367-399) at dispatch level; the per-snapshot
orphan lines are part of the environment-supplied item lines. -/
def check_rds_snapshots_d (env : DispatchEnv) (output_file : Bool) (profile : String)
    (regions : List String) : List Event × Option SweepAbort :=
  regionSweep env .rdsSnapshots output_file profile false
    (fun r => [s!"\nChecking for Orphaned RDS Snapshots in {r}",
               sepLine])
    (fun r => [s!"RDS Sweep complete in {r}"])
    regions

/-- Dispatch to the check function named `c`. -/
def runCheck_d (c : CheckName) (env : DispatchEnv) (output_file : Bool) (profile : String)
    (regions : List String) : List Event × Option SweepAbort :=
  match c with
  | .elb => check_elbs_d env output_file profile regions
  | .ebsVolumes => check_ebs_volumes_d env output_file profile regions
  | .ebsSnapshots => check_snapshots_d env output_file profile regions
  | .ec2Eips => check_eips_d env output_file profile regions
  | .elasticBeanstalk => check_beanstalk_environments_d env output_file profile regions
  | .opsworks => check_opsworks_d env output_file profile regions
  | .rdsSnapshots => check_rds_snapshots_d env output_file profile regions

/-- The order of the seven guarded calls in `run_checks` (lines 411-424). -/
def checksInOrder : List CheckName :=
  [.elb, .ebsVolumes, .ebsSnapshots, .ec2Eips, .elasticBeanstalk, .opsworks, .rdsSnapshots]

/-- The name each check is guarded by in `checks_to_exclude`. -/
def checkKey : CheckName → String
  | .elb => "elb"
  | .ebsVolumes => "ebs-volumes"
  | .ebsSnapshots => "ebs-snapshots"
  | .ec2Eips => "ec2-eips"
  | .elasticBeanstalk => "elastic-beanstalk"
  | .opsworks => "opsworks"
  | .rdsSnapshots => "rds-snapshots"

/-- The seven `if 'name' not in self.checks_to_exclude: self.check_...()`
statements inside the `try` of `run_checks`, plus its
`except ProfileNotFound` handler: a check aborted by `ProfileNotFound` makes
the handler print the could-not-be-found line and the remaining checks of
this profile are skipped (the run continues).  A TypeError from a check's
ClientError handler matches no `except` here and propagates (second
component `some`), skipping the remaining checks and killing the run. -/
def runEnabled (env : DispatchEnv) (output_file : Bool) (excl : List String)
    (regions : List String) (profile : String) : List CheckName → List Event × Option String
  | [] => ([], none)
  | c :: cs =>
    if checkKey c ∈ excl then runEnabled env output_file excl regions profile cs
    else
      match runCheck_d c env output_file profile regions with
      | (evs, some .profileNotFound) =>
        (evs ++ [⟨none, .line s!"AWS profile ({profile}) could not be found"⟩], none)
      | (evs, some (.typeError m)) => (evs, some m)
      | (evs, none) =>
        match runEnabled env output_file excl regions profile cs with
        | (evs2, ab) => (evs ++ evs2, ab)

/-- One iteration of the `for profile in self.profile_list` loop of
`run_checks` (lines 405-428): the three header lines, then the guarded
checks; an uncaught TypeError propagates. -/
def runProfile_d (env : DispatchEnv) (output_file : Bool) (excl : List String)
    (regions : List String) (profile : String) : List Event × Option String :=
  match runEnabled env output_file excl regions profile checksInOrder with
  | (evs, ab) =>
    (⟨none, .line sepLine⟩ ::
     ⟨none, .line s!"\nSweeping AWS profile ({profile})"⟩ ::
     ⟨none, .line sepLine⟩ :: evs, ab)

/-- `run_checks` (lines 401-428): the profile loop; an uncaught TypeError
from one profile's checks stops the loop and propagates. -/
def run_checks_d (env : DispatchEnv) (output_file : Bool) (excl : List String)
    (regions : List String) : List String → List Event × Option String
  | [] => ([], none)
  | p :: ps =>
    match runProfile_d env output_file excl regions p with
    | (evs, some m) => (evs, some m)
    | (evs, none) =>
      match run_checks_d env output_file excl regions ps with
      | (evs2, ab) => (evs ++ evs2, ab)

/-! ## Whole-run pipeline (`__init__`, lines 51-82, `output`, lines 181-189,
and `run_sweeper`, lines 430-448) -/

/-- Observable outcome of a whole run: the lines printed directly to the
console (bypassing `self.output`), the exit code, the event trace of
`run_checks`, the lines written to the output file (when `-o` was given), and
the final contents of `self.message` after the closing lines. -/
structure MainOut where
  printed : List String
  exitCode : Nat
  trace : List Event
  fileLines : Option (List String)
  finalMessage : List String
deriving DecidableEq

/-- `set_config_file` (lines 84-91): the path used by `load_file`. -/
def locOf (args : SPArgs) : String :=
  match args.c with
  | some c => c
  | none => "./config.yml"

/-- The report lines of a trace, in order: exactly the strings the checks pass
to `self.output` (query events emit nothing). -/
def lineTexts (tr : List Event) : List String :=
  tr.filterMap fun e =>
    match e.body with
    | .line s => some s
    | .query _ _ => none

/-- The two lines `run_sweeper` emits after writing the output file
(lines 446-447). -/
def closingLines : List String := [starLine, "Sweeper is complete!"]

/-- The whole run, composing `__init__`'s calls in source order:
`set_config_file`, `set_output`, `load_file`, `set_profile`, `run_sweeper`.
`now` is the formatted current time.  When `-o` is given, `self.output`
appends to `self.message`, which is written to the file once after
`run_checks` returns; the two closing lines are appended to `self.message`
after that write (lines 442-447).  Without `-o`, every `self.output` call
prints immediately. -/
def sweeper_init (fs : String → Option FileContent) (environ : Environ)
    (denv : DispatchEnv) (args : SPArgs) (now : String) : MainOut :=
  let cfgWarn :=
    match args.c with
    | some _ => []
    | none => ["WARN: Config option not provided. Using config.yml found in root"]
  let output_file := args.o.isSome
  match load_file fs initialState (locOf args) with
  | .exit1 pr => ⟨cfgWarn ++ pr, 1, [], none, []⟩
  | .ok pr st =>
    match set_profile environ args st.profile_list with
    | .exit1 pr2 => ⟨cfgWarn ++ pr ++ pr2, 1, [], none, []⟩
    | .ok pr2 profiles =>
      let infoLine :=
        match args.o with
        | some o => s!"INFO: Sweeping to {o}"
        | none => "INFO: Sweeping to screen"
      match run_checks_d denv output_file st.checks_to_exclude st.regions profiles with
      | (trace, some _) =>
        -- the uncaught TypeError from a ClientError handler (file-output mode)
        -- kills the process before the file write and the closing lines: the
        -- buffer holds what was appended so far, the file is never produced
        if output_file then
          ⟨cfgWarn ++ pr ++ pr2 ++ [infoLine], 1, trace, none,
           s!"Current Time {now}" :: lineTexts trace⟩
        else
          ⟨cfgWarn ++ pr ++ pr2 ++ [infoLine] ++ (s!"Current Time {now}" :: lineTexts trace),
           1, trace, none, []⟩
      | (trace, none) =>
        let msgs := s!"Current Time {now}" :: lineTexts trace
        if output_file then
          ⟨cfgWarn ++ pr ++ pr2 ++ [infoLine], 0, trace, some msgs, msgs ++ closingLines⟩
        else
          ⟨cfgWarn ++ pr ++ pr2 ++ [infoLine] ++ msgs ++ closingLines, 0, trace, none, []⟩

/-! ## Concrete instances used by witnesses and counterexamples -/

/-- ELB responses with an authorization failure in `r1` and an orphaned ELB in
`r2`. -/
def elbEnvEx : String → ApiResult (List Elb) := fun r =>
  if r = "r1" then .clientError "AccessDenied" else .ok [⟨"elb-b", []⟩]

/-- Volume responses failing in `r1`. -/
def volEnvEx : String → ApiResult (List Volume) := fun r =>
  if r = "r1" then .clientError "AccessDenied" else .ok []

/-- A two-page paginated listing: the first response carries a continuation
marker. -/
def pagesEx : Option String → PageResponse := fun m =>
  match m with
  | none => ⟨["s1"], some "m1"⟩
  | some _ => ⟨["s2"], none⟩

/-- File system with a missing requested file `custom.yml` and a present,
well-formed default `./config.yml`. -/
def fsMissingCustom : String → Option FileContent := fun path =>
  if path = "./config.yml" then some (.parsed ⟨none, none, none⟩) else none

/-- File system where every file is missing. -/
def fsAllMissing : String → Option FileContent := fun _ => none

/-- File system whose requested file fails to parse. -/
def fsParseError : String → Option FileContent := fun path =>
  if path = "custom.yml" then some (.yamlError "yaml scan error") else none

/-- File system where the requested file is missing and the default fails to
parse. -/
def fsDefaultParseError : String → Option FileContent := fun path =>
  if path = "./config.yml" then some (.yamlError "yaml scan error") else none

/-- File system whose default config parses and sets nothing. -/
def fsPlain : String → Option FileContent := fun path =>
  if path = "./config.yml" then some (.parsed ⟨none, none, none⟩) else none

/-- Dispatch environment where every profile resolves and every query returns
no items. -/
def denvEx : DispatchEnv := ⟨fun _ => true, fun _ _ _ => .ok []⟩

/-- Dispatch environment where no profile resolves. -/
def denvNoCreds : DispatchEnv := ⟨fun _ => false, fun _ _ _ => .ok []⟩

/-- Dispatch environment where every profile resolves and every query is
rejected with a ClientError. -/
def denvDenied : DispatchEnv := ⟨fun _ => true, fun _ _ _ => .clientError "AccessDenied"⟩

/-- Configuration excluding region `eu-west-1` and check `elb`. -/
def paramsEx : Params := ⟨some ["eu-west-1"], some ["elb"], none⟩

/-- File system with a well-formed, empty configuration at `cfg.yml`. -/
def fsCfg : String → Option FileContent := fun path =>
  if path = "cfg.yml" then some (.parsed ⟨none, none, none⟩) else none

/-! ## Helper lemmas -/

/-- Eliminating the mapping-loop break: the loop returns true iff the
accumulator was already true or some mapping matches. -/
theorem scanMappings_eq (sid : String) (found : Bool) (ms : List BlockDeviceMapping) :
    scanMappings sid found ms = (found || ms.any (mappingMatches sid)) := by
  induction ms with
  | nil => simp [scanMappings]
  | cons m rest ih =>
    simp only [scanMappings, List.any_cons]
    cases h : mappingMatches sid m
    · simp [h, ih]
    · simp [h]

/-- Eliminating the image loop: `snapshot_found` ends true iff it started true
or some image references the snapshot. -/
theorem scanImages_eq (sid : String) (found : Bool) (imgs : List Image) :
    scanImages sid found imgs = (found || referencedByImages imgs sid) := by
  induction imgs generalizing found with
  | nil => simp [scanImages, referencedByImages]
  | cons img rest ih =>
    simp only [scanImages, referencedByImages, List.any_cons]
    cases h : img.BlockDeviceMappings with
    | none =>
      rw [ih]
      simp [referencedByImages, h]
    | some ms =>
      rw [ih]
      simp [scanMappings_eq, referencedByImages, Bool.or_assoc]

/-- C3: in the snapshot check, for every list of completed snapshots and
available images returned for a region, a snapshot is counted as removable iff
no available image's block-device mappings contain an Ebs entry whose
SnapshotId equals that snapshot's id, and the reported count (the length of
`snapshot_list`) equals the number of such unreferenced snapshots. -/
theorem snapshot_removable_iff_unreferenced (snapshots : List Snapshot) (images : List Image) :
    collectOrphanSnapshots images snapshots
        = ((snapshots.filter fun s => !referencedByImages images s.SnapshotId).map
            Snapshot.SnapshotId)
      ∧ (collectOrphanSnapshots images snapshots).length
          = snapshots.countP (fun s => !referencedByImages images s.SnapshotId) := by
  have key : collectOrphanSnapshots images snapshots
      = ((snapshots.filter fun s => !referencedByImages images s.SnapshotId).map
          Snapshot.SnapshotId) := by
    induction snapshots with
    | nil => simp [collectOrphanSnapshots]
    | cons s rest ih =>
      simp only [collectOrphanSnapshots, scanImages_eq, Bool.false_or, List.filter_cons]
      cases h : referencedByImages images s.SnapshotId
      · simp [h, ih]
      · simp [h, ih]
  refine ⟨key, ?_⟩
  rw [key, List.length_map, ← List.countP_eq_length_filter]

/-- C4: in the volume and address checks, an item whose linking attribute is
empty (a volume with an empty `Attachments` list) or absent (an address with
no `InstanceId` key) produces exactly one report line, and an item whose
linking attribute is present and non-empty produces none: the emitted lines
are exactly one line per orphaned item, in order. -/
theorem orphan_item_lines (volumes : List Volume) (addresses : List Address) :
    volumeLines volumes
        = ((volumes.filter fun v => v.Attachments.isEmpty).map
            fun v => s!"{v.VolumeId} does not have any attachments")
      ∧ addressLines addresses
        = ((addresses.filter fun a => a.InstanceId.isNone).map
            fun a => s!"{a.PublicIp} is not attached to any instance.") := by
  constructor
  · induction volumes with
    | nil => rfl
    | cons v rest ih =>
      simp only [volumeLines, List.filter_cons]
      cases h : v.Attachments
      · simp [List.isEmpty, ih]
      · simp [List.isEmpty, ih]
  · induction addresses with
    | nil => rfl
    | cons a rest ih =>
      simp only [addressLines, List.filter_cons]
      cases h : a.InstanceId
      · simp [Option.isNone, ih]
      · simp [Option.isNone, ih]

/-- C1 counterexample: with an authorization failure in region `r1` and an
orphaned ELB in region `r2`, the claim predicts that `r2` is still processed;
in the code the `try` wraps the whole region loop, so neither the banner for
`r2` nor the orphan line for its ELB ever appears. -/
theorem clienterror_counterexample :
    elbEnvEx "r1" = .clientError "AccessDenied"
      ∧ elbEnvEx "r2" = .ok [⟨"elb-b", []⟩]
      ∧ "elb-b does not have any instances attached" ∉ (check_elbs false elbEnvEx ["r1", "r2"]).1
      ∧ "\nChecking for orphaned ELB\x27s in r2" ∉ (check_elbs false elbEnvEx ["r1", "r2"]).1 := by
  refine ⟨rfl, rfl, ?_, ?_⟩ <;> decide

/-- C2: the recursive call of `get_data` passes the bare `client` object where
the listing function is expected (`get_data(client, key, response['Marker'])`,
line 377).  On a two-page listing the code raises an uncaught TypeError
instead of fetching and appending the remaining pages, while the
spec-modelled pagination (`get_data_spec`) returns the concatenation of the
result key across all pages. -/
theorem get_data_recursion_bug :
    get_data (.method pagesEx) none 10 = .error "TypeError: client object is not callable"
      ∧ get_data_spec pagesEx none 10 = .ok ["s1", "s2"] :=
  ⟨rfl, rfl⟩

/-- Every event in `tagLines c ls` is a line of `ls` tagged `c`. -/
theorem tagLines_mem {c : CheckName} {ls : List String} {e : Event}
    (h : e ∈ tagLines c ls) : e.tag = some c ∧ ∃ s ∈ ls, e.body = .line s := by
  simp only [tagLines, List.mem_map] at h
  obtain ⟨s, hs, rfl⟩ := h
  exact ⟨rfl, s, hs, rfl⟩

/-- Every event a check's region loop emits carries that check's tag. -/
theorem regionSweep_tag {env : DispatchEnv} {c : CheckName} {of : Bool} {profile : String}
    {cf : Bool} {banner completion : String → List String} :
    ∀ {rs : List String} {e : Event},
      e ∈ (regionSweep env c of profile cf banner completion rs).1 → e.tag = some c := by
  intro rs
  induction rs with
  | nil => intro e h; simp [regionSweep] at h
  | cons r rest ih =>
    intro e h
    simp only [regionSweep] at h
    split at h
    · split at h
      · simp at h
      · exact (tagLines_mem h).1
    · split at h
      · split at h
        · simp only [List.mem_append, List.mem_singleton] at h
          rcases h with h | h
          · exact (tagLines_mem h).1
          · subst h; rfl
        · simp only [List.mem_append, List.mem_cons] at h
          rcases h with h | h | h
          · exact (tagLines_mem h).1
          · subst h; rfl
          · exact (tagLines_mem h).1
      · rename_i itemLines heq
        simp only [List.mem_append, List.mem_cons] at h
        rcases h with h | h | h | h
        · exact (tagLines_mem h).1
        · subst h; rfl
        · exact (tagLines_mem h).1
        · exact ih h

/-- Every query event a check's region loop emits targets a region of the
iterated list. -/
theorem regionSweep_query {env : DispatchEnv} {c : CheckName} {of : Bool} {profile : String}
    {cf : Bool} {banner completion : String → List String} :
    ∀ {rs : List String} {e : Event},
      e ∈ (regionSweep env c of profile cf banner completion rs).1 →
      ∀ {s r : String}, e.body = .query s r → r ∈ rs := by
  intro rs
  induction rs with
  | nil => intro e h; simp [regionSweep] at h
  | cons r0 rest ih =>
    intro e h s r hq
    simp only [regionSweep] at h
    split at h
    · split at h
      · simp at h
      · obtain ⟨-, t, -, hl⟩ := tagLines_mem h
        rw [hl] at hq; cases hq
    · split at h
      · split at h
        · simp only [List.mem_append, List.mem_singleton] at h
          rcases h with h | h
          · obtain ⟨-, t, -, hl⟩ := tagLines_mem h
            rw [hl] at hq; cases hq
          · subst h; cases hq; exact List.mem_cons_self _ _
        · simp only [List.mem_append, List.mem_cons] at h
          rcases h with h | h | h
          · obtain ⟨-, t, -, hl⟩ := tagLines_mem h
            rw [hl] at hq; cases hq
          · subst h; cases hq; exact List.mem_cons_self _ _
          · obtain ⟨-, t, -, hl⟩ := tagLines_mem h
            rw [hl] at hq; cases hq
      · rename_i itemLines heq
        simp only [List.mem_append, List.mem_cons] at h
        rcases h with h | h | h | h
        · obtain ⟨-, t, -, hl⟩ := tagLines_mem h
          rw [hl] at hq; cases hq
        · subst h; cases hq; exact List.mem_cons_self _ _
        · obtain ⟨-, t, -, hl⟩ := tagLines_mem h
          rw [hl] at hq; cases hq
        · exact List.mem_cons_of_mem _ (ih h hq)

/-- When `ProfileNotFound` aborts the region loop at its first region, the
loop signals the abort and has emitted only (possibly zero) banner lines. -/
theorem regionSweep_missing {env : DispatchEnv} {c : CheckName} {of : Bool} {profile : String}
    {cf : Bool} {banner completion : String → List String} {r : String} {rs : List String}
    (h : profileMissing env profile = true) :
    regionSweep env c of profile cf banner completion (r :: rs)
      = (if cf then [] else tagLines c (banner r), some .profileNotFound) := by
  simp [regionSweep, h]

/-- On screen output the run is never killed: a region loop's abort, if any,
is a `ProfileNotFound` (the ClientError handler prints and continues). -/
theorem regionSweep_screen {env : DispatchEnv} {c : CheckName} {profile : String}
    {cf : Bool} {banner completion : String → List String} :
    ∀ {rs : List String} {m : String},
      (regionSweep env c false profile cf banner completion rs).2
        ≠ some (.typeError m) := by
  intro rs
  induction rs with
  | nil => intro m h; cases h
  | cons r rest ih =>
    intro m h
    simp only [regionSweep] at h
    split at h
    · simp at h
    · split at h
      · simp at h
      · rename_i itemLines heq
        exact ih h

/-- Every event a check function emits carries that check's tag. -/
theorem runCheck_d_tag {c : CheckName} {env : DispatchEnv} {of : Bool} {profile : String}
    {regions : List String} {e : Event} (h : e ∈ (runCheck_d c env of profile regions).1) :
    e.tag = some c := by
  cases c <;>
    simp only [runCheck_d, check_elbs_d, check_ebs_volumes_d, check_snapshots_d, check_eips_d,
      check_beanstalk_environments_d, check_opsworks_d, check_rds_snapshots_d] at h <;>
    exact regionSweep_tag h

/-- Every query a check function issues targets a region of the iterated
list. -/
theorem runCheck_d_query {c : CheckName} {env : DispatchEnv} {of : Bool} {profile : String}
    {regions : List String} {e : Event} (h : e ∈ (runCheck_d c env of profile regions).1)
    {s r : String} (hq : e.body = .query s r) : r ∈ regions := by
  cases c <;>
    simp only [runCheck_d, check_elbs_d, check_ebs_volumes_d, check_snapshots_d, check_eips_d,
      check_beanstalk_environments_d, check_opsworks_d, check_rds_snapshots_d] at h <;>
    exact regionSweep_query h hq

/-- When the profile does not resolve, every check aborts at its first region
having emitted only (tagged) banner lines. -/
theorem runCheck_d_missing {c : CheckName} {env : DispatchEnv} {of : Bool} {profile : String}
    {r : String} {rs : List String} (h : profileMissing env profile = true) :
    ∃ ls, runCheck_d c env of profile (r :: rs) = (tagLines c ls, some .profileNotFound) := by
  cases c <;>
    simp only [runCheck_d, check_elbs_d, check_ebs_volumes_d, check_snapshots_d, check_eips_d,
      check_beanstalk_environments_d, check_opsworks_d, check_rds_snapshots_d,
      regionSweep_missing h, if_true, if_false, Bool.true_eq_false] <;>
    first
      | exact ⟨[], rfl⟩
      | exact ⟨_, rfl⟩

/-- On screen output no check ever raises the buffered-append TypeError. -/
theorem runCheck_d_screen {c : CheckName} {env : DispatchEnv} {profile : String}
    {regions : List String} {m : String} :
    (runCheck_d c env false profile regions).2 ≠ some (.typeError m) := by
  cases c <;>
    simp only [runCheck_d, check_elbs_d, check_ebs_volumes_d, check_snapshots_d, check_eips_d,
      check_beanstalk_environments_d, check_opsworks_d, check_rds_snapshots_d] <;>
    exact regionSweep_screen

/-- Every event `runEnabled` emits is either untagged (printed by `run_checks`
itself) or comes from a non-excluded check of the list. -/
theorem runEnabled_mem {env : DispatchEnv} {of : Bool} {excl regions : List String}
    {profile : String} :
    ∀ {cs : List CheckName} {e : Event}, e ∈ (runEnabled env of excl regions profile cs).1 →
      e.tag = none ∨ ∃ c ∈ cs, checkKey c ∉ excl ∧ e.tag = some c := by
  intro cs
  induction cs with
  | nil => intro e h; simp [runEnabled] at h
  | cons c cs ih =>
    intro e h
    simp only [runEnabled] at h
    split at h
    · rcases ih h with h' | ⟨c', hc', hk, ht⟩
      · exact .inl h'
      · exact .inr ⟨c', List.mem_cons_of_mem _ hc', hk, ht⟩
    · rename_i hexcl
      split at h
      · rename_i evs heq
        simp only [List.mem_append, List.mem_singleton] at h
        rcases h with h | h
        · exact .inr ⟨c, List.mem_cons_self _ _, hexcl,
            runCheck_d_tag (by rw [heq]; exact h)⟩
        · subst h; exact .inl rfl
      · rename_i evs m heq
        exact .inr ⟨c, List.mem_cons_self _ _, hexcl,
          runCheck_d_tag (by rw [heq]; exact h)⟩
      · rename_i evs heq
        simp only [List.mem_append] at h
        rcases h with h | h
        · exact .inr ⟨c, List.mem_cons_self _ _, hexcl,
            runCheck_d_tag (by rw [heq]; exact h)⟩
        · rcases ih h with h' | ⟨c', hc', hk, ht⟩
          · exact .inl h'
          · exact .inr ⟨c', List.mem_cons_of_mem _ hc', hk, ht⟩

/-- Every query `runEnabled` issues targets a region of the region list. -/
theorem runEnabled_query {env : DispatchEnv} {of : Bool} {excl regions : List String}
    {profile : String} :
    ∀ {cs : List CheckName} {e : Event}, e ∈ (runEnabled env of excl regions profile cs).1 →
      ∀ {s r : String}, e.body = .query s r → r ∈ regions := by
  intro cs
  induction cs with
  | nil => intro e h; simp [runEnabled] at h
  | cons c cs ih =>
    intro e h s r hq
    simp only [runEnabled] at h
    split at h
    · exact ih h hq
    · split at h
      · rename_i evs heq
        simp only [List.mem_append, List.mem_singleton] at h
        rcases h with h | h
        · exact runCheck_d_query (by rw [heq]; exact h) hq
        · subst h; cases hq
      · rename_i evs m heq
        exact runCheck_d_query (by rw [heq]; exact h) hq
      · rename_i evs heq
        simp only [List.mem_append] at h
        rcases h with h | h
        · exact runCheck_d_query (by rw [heq]; exact h) hq
        · exact ih h hq

/-- On screen output `runEnabled` never propagates an exception: ClientError
is printed and `ProfileNotFound` is handled. -/
theorem runEnabled_screen {env : DispatchEnv} {excl regions : List String}
    {profile : String} :
    ∀ {cs : List CheckName}, (runEnabled env false excl regions profile cs).2 = none := by
  intro cs
  induction cs with
  | nil => rfl
  | cons c cs ih =>
    simp only [runEnabled]
    split
    · exact ih
    · split
      · rfl
      · rename_i evs m heq
        exact absurd (show (runCheck_d c env false profile regions).2 = some (.typeError m) by
          rw [heq]) runCheck_d_screen
      · rename_i evs heq
        exact ih

/-- `runProfile_d` as its components. -/
theorem runProfile_d_eq (env : DispatchEnv) (of : Bool) (excl regions : List String)
    (profile : String) :
    runProfile_d env of excl regions profile
      = (⟨none, .line sepLine⟩ ::
          ⟨none, .line s!"\nSweeping AWS profile ({profile})"⟩ ::
          ⟨none, .line sepLine⟩ :: (runEnabled env of excl regions profile checksInOrder).1,
         (runEnabled env of excl regions profile checksInOrder).2) := by
  rcases h : runEnabled env of excl regions profile checksInOrder with ⟨evs, ab⟩
  simp [runProfile_d, h]

/-- Every event of a profile's cycle is either untagged or comes from a
non-excluded check. -/
theorem runProfile_d_mem {env : DispatchEnv} {of : Bool} {excl regions : List String}
    {profile : String} {e : Event}
    (h : e ∈ (runProfile_d env of excl regions profile).1) :
    e.tag = none ∨ ∃ c, checkKey c ∉ excl ∧ e.tag = some c := by
  rw [runProfile_d_eq] at h
  simp only [List.mem_cons] at h
  rcases h with rfl | rfl | rfl | h
  · exact .inl rfl
  · exact .inl rfl
  · exact .inl rfl
  · rcases runEnabled_mem h with h' | ⟨c, -, hk, ht⟩
    · exact .inl h'
    · exact .inr ⟨c, hk, ht⟩

/-- Every query of a profile's cycle targets a region of the region list. -/
theorem runProfile_d_query {env : DispatchEnv} {of : Bool} {excl regions : List String}
    {profile : String} {e : Event}
    (h : e ∈ (runProfile_d env of excl regions profile).1)
    {s r : String} (hq : e.body = .query s r) : r ∈ regions := by
  rw [runProfile_d_eq] at h
  simp only [List.mem_cons] at h
  rcases h with rfl | rfl | rfl | h
  · cases hq
  · cases hq
  · cases hq
  · exact runEnabled_query h hq

/-- Unfolding `run_checks_d` when the first profile's cycle completes. -/
theorem run_checks_d_cons_none {env : DispatchEnv} {of : Bool} {excl regions : List String}
    {p : String} {ps : List String}
    (h : (runProfile_d env of excl regions p).2 = none) :
    run_checks_d env of excl regions (p :: ps)
      = ((runProfile_d env of excl regions p).1 ++ (run_checks_d env of excl regions ps).1,
         (run_checks_d env of excl regions ps).2) := by
  rcases hp : runProfile_d env of excl regions p with ⟨evs, ab⟩
  rw [hp] at h
  dsimp only at h
  subst h
  rcases hr : run_checks_d env of excl regions ps with ⟨evs2, ab2⟩
  simp [run_checks_d, hp, hr]

/-- Unfolding `run_checks_d` when the first profile's cycle dies with an
uncaught exception: later profiles never run. -/
theorem run_checks_d_cons_abort {env : DispatchEnv} {of : Bool} {excl regions : List String}
    {p : String} {ps : List String} {m : String}
    (h : (runProfile_d env of excl regions p).2 = some m) :
    run_checks_d env of excl regions (p :: ps)
      = ((runProfile_d env of excl regions p).1, some m) := by
  rcases hp : runProfile_d env of excl regions p with ⟨evs, ab⟩
  rw [hp] at h
  dsimp only at h
  subst h
  simp [run_checks_d, hp]

/-- Every event of a run is either untagged or comes from a non-excluded
check. -/
theorem run_checks_d_mem {env : DispatchEnv} {of : Bool} {excl regions : List String} :
    ∀ {ps : List String} {e : Event}, e ∈ (run_checks_d env of excl regions ps).1 →
      e.tag = none ∨ ∃ c, checkKey c ∉ excl ∧ e.tag = some c := by
  intro ps
  induction ps with
  | nil => intro e h; simp [run_checks_d] at h
  | cons p ps ih =>
    intro e h
    simp only [run_checks_d] at h
    split at h
    · rename_i evs m heq
      exact runProfile_d_mem (by rw [heq]; exact h)
    · rename_i evs heq
      simp only [List.mem_append] at h
      rcases h with h | h
      · exact runProfile_d_mem (by rw [heq]; exact h)
      · exact ih h

/-- Every query of a run targets a region of the region list. -/
theorem run_checks_d_query {env : DispatchEnv} {of : Bool} {excl regions : List String} :
    ∀ {ps : List String} {e : Event}, e ∈ (run_checks_d env of excl regions ps).1 →
      ∀ {s r : String}, e.body = .query s r → r ∈ regions := by
  intro ps
  induction ps with
  | nil => intro e h; simp [run_checks_d] at h
  | cons p ps ih =>
    intro e h s r hq
    simp only [run_checks_d] at h
    split at h
    · rename_i evs m heq
      exact runProfile_d_query (by rw [heq]; exact h) hq
    · rename_i evs heq
      simp only [List.mem_append] at h
      rcases h with h | h
      · exact runProfile_d_query (by rw [heq]; exact h) hq
      · exact ih h hq

/-- The exclusion loop only removes regions. -/
theorem mem_removeExcluded {x : String} :
    ∀ {l regions : List String}, x ∈ removeExcluded regions l → x ∈ regions := by
  intro l
  induction l with
  | nil => intro regions h; exact h
  | cons r rest ih =>
    intro regions h
    have hx := ih h
    split at hx
    · exact List.mem_of_mem_erase hx
    · exact hx

/-- A region listed in `regions_to_exclude` is absent from the resulting
region list (the initial list has no duplicates). -/
theorem not_mem_removeExcluded {x : String} :
    ∀ {l regions : List String}, regions.Nodup → x ∈ l →
      x ∉ removeExcluded regions l := by
  intro l
  induction l with
  | nil => intro regions _ h; cases h
  | cons r rest ih =>
    intro regions hnd hx
    simp only [removeExcluded]
    rcases List.mem_cons.mp hx with rfl | hx
    · intro hmem
      have h2 := mem_removeExcluded hmem
      split at h2
      · exact ((List.Nodup.mem_erase_iff hnd).mp h2).1 rfl
      · rename_i hnotin
        exact hnotin h2
    · have hnd' : (if r ∈ regions then regions.erase r else regions).Nodup := by
        split
        · exact hnd.erase r
        · exact hnd
      exact ih hnd' hx

/-- On screen output (the default sink, where no check can kill the run)
`run_checks` runs one full check cycle per profile, in order. -/
theorem run_checks_d_cycles (env : DispatchEnv) (excl regions : List String) :
    ∀ ps : List String,
      run_checks_d env false excl regions ps
        = (ps.flatMap (fun p => (runProfile_d env false excl regions p).1), none) := by
  intro ps
  induction ps with
  | nil => rfl
  | cons p ps ih =>
    have hab : (runProfile_d env false excl regions p).2 = none := by
      rw [runProfile_d_eq]
      exact runEnabled_screen
    rw [run_checks_d_cons_none hab, ih, List.flatMap_cons]

/-- When the profile does not resolve and at least one check of the list is
enabled, the `except ProfileNotFound` handler of `run_checks` emits the
could-not-be-found line, no query is ever issued for this profile, and the
run continues (no exception propagates). -/
theorem runEnabled_missing {env : DispatchEnv} {of : Bool} {excl : List String} {r : String}
    {rs : List String} {profile : String} (h : profileMissing env profile = true) :
    ∀ {cs : List CheckName}, (∃ c ∈ cs, checkKey c ∉ excl) →
      (⟨none, .line s!"AWS profile ({profile}) could not be found"⟩ : Event)
          ∈ (runEnabled env of excl (r :: rs) profile cs).1
        ∧ (∀ e ∈ (runEnabled env of excl (r :: rs) profile cs).1,
            ∀ s r' : String, e.body ≠ .query s r')
        ∧ (runEnabled env of excl (r :: rs) profile cs).2 = none := by
  intro cs
  induction cs with
  | nil => rintro ⟨c, hc, -⟩; cases hc
  | cons c cs ih =>
    rintro ⟨c', hc', hk⟩
    by_cases hexcl : checkKey c ∈ excl
    · simp only [runEnabled, if_pos hexcl]
      rcases List.mem_cons.mp hc' with rfl | hc'
      · exact absurd hexcl hk
      · exact ih ⟨c', hc', hk⟩
    · obtain ⟨ls, heq⟩ :=
        @runCheck_d_missing c env of profile r rs h
      simp only [runEnabled, if_neg hexcl, heq]
      refine ⟨by simp, ?_, trivial⟩
      intro e he s r'
      rcases List.mem_append.mp he with he | he
      · obtain ⟨-, t, -, hl⟩ := tagLines_mem he
        simp [hl]
      · rw [List.mem_singleton.mp he]
        simp

/-- C1 amended: when a ClientError occurs while processing one region, that
check's region loop ends and its remaining regions are skipped.  On screen
output (conjuncts 1-2, for the claim's cited checks) the error text and the
fixed access message are appended and the run continues with the next check —
a caught ClientError never signals an abort there (conjunct 4).  With `-o`
selected (conjunct 3) the handler's `self.message += err` on the ClientError
object raises an uncaught TypeError: nothing after the banners is appended
and the whole run aborts — no access message, no later check, no later
profile (conjunct 5, at run level). -/
theorem clienterror_aborts_region_loop (envE : String → ApiResult (List Elb))
    (envV : String → ApiResult (List Volume)) (denv : DispatchEnv)
    (region profile msg : String) (rest excl rs2 : List String)
    (p r2 : String) (ps : List String) :
    (envE region = .clientError msg →
      check_elbs false envE (region :: rest) =
        ([s!"\nChecking for orphaned ELB\x27s in {region}",
          "This sweep looks for ELB\x27s without any attached instances.",
          sepLine,
          msg, accessDeniedMsg], none))
    ∧ (envV region = .clientError msg →
      check_ebs_volumes false envV (region :: rest) =
        ([s!"\nChecking for unattached EBS Volumes in {region}",
          sepLine,
          msg, accessDeniedMsg], none))
    ∧ (envE region = .clientError msg →
      check_elbs true envE (region :: rest) =
        ([s!"\nChecking for orphaned ELB\x27s in {region}",
          "This sweep looks for ELB\x27s without any attached instances.",
          sepLine], some clientErrorTypeError))
    ∧ (denv.creds profile = true →
      ∀ regions : List String, (check_elbs_d denv false profile regions).2 = none)
    ∧ (denv.creds p = true → "elb" ∉ excl → denv.items .elb p r2 = .clientError msg →
      run_checks_d denv true excl (r2 :: rs2) (p :: ps)
        = (⟨none, .line sepLine⟩ ::
           ⟨none, .line s!"\nSweeping AWS profile ({p})"⟩ ::
           ⟨none, .line sepLine⟩ ::
           (tagLines .elb [s!"\nChecking for orphaned ELB\x27s in {r2}",
              "This sweep looks for ELB\x27s without any attached instances.",
              sepLine]
            ++ [⟨some .elb, .query "elb" r2⟩]),
           some clientErrorTypeError)) := by
  refine ⟨fun h => by simp [check_elbs, h], fun h => by simp [check_ebs_volumes, h],
    fun h => by simp [check_elbs, h], fun h => ?_, fun hc hx hi => ?_⟩
  · intro regions
    induction regions with
    | nil => rfl
    | cons r rs ih =>
      simp only [check_elbs_d] at ih ⊢
      simp only [regionSweep, profileMissing, h, Bool.not_true, Bool.and_false, if_neg,
        Bool.false_eq_true, not_false_eq_true]
      cases hi : denv.items .elb profile r with
      | clientError m => simp
      | ok ls =>
        simp only
        cases hr : regionSweep denv .elb false profile true
            (fun r => [s!"\nChecking for orphaned ELB\x27s in {r}",
                       "This sweep looks for ELB\x27s without any attached instances.",
                       sepLine])
            (fun r => [s!"ELB sweep in {r} complete",
                       "All configured regions checked for orphaned ELB\x27s"]) rs with
        | mk evs ab => rw [hr] at ih; exact ih
  · have hbody : runEnabled denv true excl (r2 :: rs2) p checksInOrder
        = (tagLines .elb [s!"\nChecking for orphaned ELB\x27s in {r2}",
            "This sweep looks for ELB\x27s without any attached instances.",
            sepLine]
           ++ [⟨some .elb, .query "elb" r2⟩],
           some clientErrorTypeError) := by
      simp only [checksInOrder, runEnabled, checkKey, if_neg hx, runCheck_d, check_elbs_d,
        regionSweep, profileMissing, hc, Bool.not_true, Bool.and_false, Bool.false_eq_true,
        if_neg, not_false_eq_true, hi, if_true, serviceOf]
    have hprof : runProfile_d denv true excl (r2 :: rs2) p
        = (⟨none, .line sepLine⟩ ::
           ⟨none, .line s!"\nSweeping AWS profile ({p})"⟩ ::
           ⟨none, .line sepLine⟩ ::
           (tagLines .elb [s!"\nChecking for orphaned ELB\x27s in {r2}",
              "This sweep looks for ELB\x27s without any attached instances.",
              sepLine]
            ++ [⟨some .elb, .query "elb" r2⟩]),
           some clientErrorTypeError) := by
      rw [runProfile_d_eq, hbody]
    rw [run_checks_d_cons_abort (by rw [hprof]), hprof]

/-- C1 amended, witness: concrete instantiation of each hypothesis. -/
theorem clienterror_aborts_region_loop_witness :
    (elbEnvEx "r1" = .clientError "AccessDenied"
      ∧ volEnvEx "r1" = .clientError "AccessDenied"
      ∧ denvDenied.creds "p1" = true
      ∧ "elb" ∉ ([] : List String)
      ∧ denvDenied.items .elb "p1" "r1" = .clientError "AccessDenied")
    ∧ check_elbs false elbEnvEx ["r1", "r2"] =
        (["\nChecking for orphaned ELB\x27s in r1",
          "This sweep looks for ELB\x27s without any attached instances.",
          sepLine,
          "AccessDenied", accessDeniedMsg], none)
    ∧ check_ebs_volumes false volEnvEx ["r1", "r2"] =
        (["\nChecking for unattached EBS Volumes in r1",
          sepLine,
          "AccessDenied", accessDeniedMsg], none)
    ∧ check_elbs true elbEnvEx ["r1", "r2"] =
        (["\nChecking for orphaned ELB\x27s in r1",
          "This sweep looks for ELB\x27s without any attached instances.",
          sepLine], some clientErrorTypeError)
    ∧ (check_elbs_d denvDenied false "p1" ["r1"]).2 = none
    ∧ run_checks_d denvDenied true [] ["r1"] ["p1", "p2"]
        = (⟨none, .line sepLine⟩ ::
           ⟨none, .line "\nSweeping AWS profile (p1)"⟩ ::
           ⟨none, .line sepLine⟩ ::
           (tagLines .elb ["\nChecking for orphaned ELB\x27s in r1",
              "This sweep looks for ELB\x27s without any attached instances.",
              sepLine]
            ++ [⟨some .elb, .query "elb" "r1"⟩]),
           some clientErrorTypeError) :=
  ⟨⟨rfl, rfl, rfl, by decide, rfl⟩,
   (clienterror_aborts_region_loop elbEnvEx volEnvEx denvDenied "r1" "p1" "AccessDenied"
      ["r2"] [] [] "p1" "r1" ["p2"]).1 rfl,
   (clienterror_aborts_region_loop elbEnvEx volEnvEx denvDenied "r1" "p1" "AccessDenied"
      ["r2"] [] [] "p1" "r1" ["p2"]).2.1 rfl,
   (clienterror_aborts_region_loop elbEnvEx volEnvEx denvDenied "r1" "p1" "AccessDenied"
      ["r2"] [] [] "p1" "r1" ["p2"]).2.2.1 rfl,
   (clienterror_aborts_region_loop elbEnvEx volEnvEx denvDenied "r1" "p1" "AccessDenied"
      ["r2"] [] [] "p1" "r1" ["p2"]).2.2.2.1 rfl ["r1"],
   (clienterror_aborts_region_loop elbEnvEx volEnvEx denvDenied "r1" "p1" "AccessDenied"
      ["r2"] [] [] "p1" "r1" ["p2"]).2.2.2.2 rfl (by decide) rfl⟩

/-- C9: for every profile in the profile list whose session creation raises
`ProfileNotFound`, a report line is emitted and only the remaining checks of
that profile are aborted: no query is issued for that profile, the run does
not terminate, and the next profiles' checks still execute.  (Hypotheses: the
profile name is non-empty and does not resolve, at least one region and one
enabled check exist — otherwise `create_client` is never reached and nothing
is raised.) -/
theorem profile_not_found_scoped (env : DispatchEnv) (of : Bool) (excl : List String)
    (r : String) (rs : List String) (p : String) (ps : List String)
    (h1 : env.creds p = false) (h2 : p ≠ "")
    (h3 : ∃ c ∈ checksInOrder, checkKey c ∉ excl) :
    (⟨none, .line s!"AWS profile ({p}) could not be found"⟩ : Event)
        ∈ (runProfile_d env of excl (r :: rs) p).1
      ∧ (∀ e ∈ (runProfile_d env of excl (r :: rs) p).1,
          ∀ s r' : String, e.body ≠ .query s r')
      ∧ run_checks_d env of excl (r :: rs) (p :: ps)
          = ((runProfile_d env of excl (r :: rs) p).1
              ++ (run_checks_d env of excl (r :: rs) ps).1,
             (run_checks_d env of excl (r :: rs) ps).2) := by
  have hm : profileMissing env p = true := by
    simp [profileMissing, h1, bne_iff_ne, h2]
  obtain ⟨hmem, hnoq, hab⟩ := runEnabled_missing hm h3
  refine ⟨?_, ?_, run_checks_d_cons_none (by rw [runProfile_d_eq]; exact hab)⟩
  · rw [runProfile_d_eq]
    simp only [List.mem_cons]
    exact .inr (.inr (.inr hmem))
  · intro e he s r'
    rw [runProfile_d_eq] at he
    simp only [List.mem_cons] at he
    rcases he with rfl | rfl | rfl | he
    · simp
    · simp
    · simp
    · exact hnoq e he s r'

/-- C9, witness. -/
theorem profile_not_found_scoped_witness :
    (denvNoCreds.creds "badprof" = false ∧ "badprof" ≠ ""
      ∧ ∃ c ∈ checksInOrder, checkKey c ∉ ([] : List String))
    ∧ ((⟨none, .line "AWS profile (badprof) could not be found"⟩ : Event)
          ∈ (runProfile_d denvNoCreds false [] ["r1"] "badprof").1
        ∧ (∀ e ∈ (runProfile_d denvNoCreds false [] ["r1"] "badprof").1,
            ∀ s r' : String, e.body ≠ .query s r')
        ∧ run_checks_d denvNoCreds false [] ["r1"] ["badprof", "good"]
            = ((runProfile_d denvNoCreds false [] ["r1"] "badprof").1
                ++ (run_checks_d denvNoCreds false [] ["r1"] ["good"]).1,
               (run_checks_d denvNoCreds false [] ["r1"] ["good"]).2)) :=
  ⟨⟨rfl, by decide, ⟨.elb, by decide, by decide⟩⟩,
   profile_not_found_scoped denvNoCreds false [] "r1" [] "badprof" ["good"] rfl (by decide)
     ⟨.elb, by decide, by decide⟩⟩

/-- The default region list has no duplicates. -/
theorem initialRegions_nodup : initialState.regions.Nodup := by decide

/-- C5: for every configuration, a check name listed in `checks_to_exclude`
contributes no output line to the report for any region or profile, and a
region listed in `regions_to_exclude` receives no query of any check for any
profile. -/
theorem excluded_checks_and_regions (denv : DispatchEnv) (of : Bool) (p : Params)
    (profiles : List String) (c : CheckName) (rgn : String) (l : List String) :
    (checkKey c ∈ (applyParams initialState p).checks_to_exclude →
      ∀ e ∈ (run_checks_d denv of (applyParams initialState p).checks_to_exclude
          (applyParams initialState p).regions profiles).1, e.tag ≠ some c)
    ∧ (p.regions_to_exclude = some l → rgn ∈ l →
      ∀ e ∈ (run_checks_d denv of (applyParams initialState p).checks_to_exclude
          (applyParams initialState p).regions profiles).1,
        ∀ s : String, e.body ≠ .query s rgn) := by
  constructor
  · intro hc e he ht
    rcases run_checks_d_mem he with h' | ⟨c', hk, ht'⟩
    · rw [ht] at h'; cases h'
    · rw [ht] at ht'
      injection ht' with ht'
      subst ht'
      exact hk hc
  · intro hl hr e he s hb
    have hmem := run_checks_d_query he hb
    have hregions : (applyParams initialState p).regions
        = removeExcluded initialState.regions l := by
      simp [applyParams, hl, List.ne_nil_of_mem hr]
    rw [hregions] at hmem
    exact not_mem_removeExcluded initialRegions_nodup hr hmem

/-- C5, witness: a configuration excluding check `elb` and region
`eu-west-1`. -/
theorem excluded_checks_and_regions_witness :
    (∀ e ∈ (run_checks_d denvEx false (applyParams initialState paramsEx).checks_to_exclude
        (applyParams initialState paramsEx).regions ["p1"]).1, e.tag ≠ some .elb)
    ∧ (∀ e ∈ (run_checks_d denvEx false (applyParams initialState paramsEx).checks_to_exclude
        (applyParams initialState paramsEx).regions ["p1"]).1,
        ∀ s : String, e.body ≠ .query s "eu-west-1") :=
  ⟨(excluded_checks_and_regions denvEx false paramsEx ["p1"] .elb "eu-west-1" ["eu-west-1"]).1
      (by decide),
   (excluded_checks_and_regions denvEx false paramsEx ["p1"] .elb "eu-west-1" ["eu-west-1"]).2
      rfl (by decide)⟩

/-- C6 counterexample: a missing configuration file given via `-c` does not
fail the run when the default `./config.yml` exists — `load_file` prints a
WARN and falls back to the default instead of exiting. -/
theorem missing_config_counterexample :
    fsMissingCustom "custom.yml" = none
      ∧ load_file fsMissingCustom initialState "custom.yml"
          = .ok ["WARN: custom.yml not found, loading default"] initialState :=
  ⟨rfl, rfl⟩

/-- C6 amended: a configuration file that fails to parse makes the run print
the parse error and exit non-zero; a missing configuration file falls back to
`./config.yml`, and the run exits non-zero only when that default is also
missing or fails to parse. -/
theorem config_load_failure_amended (fs : String → Option FileContent) (loc : String)
    (st : ConfigState) (m m' : String) (p : Params) :
    (fs loc = some (.yamlError m) → load_file fs st loc = .exit1 [m])
    ∧ (fs loc = none → fs "./config.yml" = none →
        load_file fs st loc = .exit1 [s!"WARN: {loc} not found, loading default",
          "ERROR: Default config.yml cannot be found. Exiting"])
    ∧ (fs loc = none → fs "./config.yml" = some (.yamlError m') →
        load_file fs st loc = .exit1 [s!"WARN: {loc} not found, loading default", m'])
    ∧ (fs loc = none → fs "./config.yml" = some (.parsed p) →
        load_file fs st loc
          = .ok [s!"WARN: {loc} not found, loading default"] (applyParams st p)) :=
  ⟨fun h => by simp [load_file, h],
   fun h h2 => by simp [load_file, h, h2],
   fun h h2 => by simp [load_file, h, h2],
   fun h h2 => by simp [load_file, h, h2]⟩

/-- C6 amended, witness: the four file-system shapes. -/
theorem config_load_failure_amended_witness :
    load_file fsParseError initialState "custom.yml" = .exit1 ["yaml scan error"]
    ∧ load_file fsAllMissing initialState "custom.yml"
        = .exit1 ["WARN: custom.yml not found, loading default",
            "ERROR: Default config.yml cannot be found. Exiting"]
    ∧ load_file fsDefaultParseError initialState "custom.yml"
        = .exit1 ["WARN: custom.yml not found, loading default", "yaml scan error"]
    ∧ load_file fsMissingCustom initialState "custom.yml"
        = .ok ["WARN: custom.yml not found, loading default"]
            (applyParams initialState ⟨none, none, none⟩) :=
  ⟨(config_load_failure_amended fsParseError "custom.yml" initialState "yaml scan error"
      "yaml scan error" ⟨none, none, none⟩).1 rfl,
   (config_load_failure_amended fsAllMissing "custom.yml" initialState "yaml scan error"
      "yaml scan error" ⟨none, none, none⟩).2.1 rfl rfl,
   (config_load_failure_amended fsDefaultParseError "custom.yml" initialState "yaml scan error"
      "yaml scan error" ⟨none, none, none⟩).2.2.1 rfl rfl,
   (config_load_failure_amended fsMissingCustom "custom.yml" initialState "yaml scan error"
      "yaml scan error" ⟨none, none, none⟩).2.2.2 rfl rfl⟩

/-- C7: when no profile came from the command line or the configuration file,
the run falls back to ambient environment credentials: it exits with status 1
before running any check (empty trace, so no query is ever issued) when
neither environment variable is present, and proceeds (normal completion)
when both are present. -/
theorem env_credentials_fallback (fs : String → Option FileContent) (environ : Environ)
    (denv : DispatchEnv) (args : SPArgs) (now : String) (pr : List String)
    (st : ConfigState) (hp : args.p = none)
    (hload : load_file fs initialState (locOf args) = .ok pr st)
    (hprof : st.profile_list = []) :
    (environ.hasAccessKeyId = false ∧ environ.hasSecretAccessKey = false →
      (sweeper_init fs environ denv args now).exitCode = 1
        ∧ (sweeper_init fs environ denv args now).trace = [])
    ∧ (environ.hasAccessKeyId = true ∧ environ.hasSecretAccessKey = true →
      (sweeper_init fs environ denv args now).exitCode = 0) := by
  constructor
  · rintro ⟨h1, h2⟩
    simp [sweeper_init, hload, set_profile, hp, hprof, h1, h2]
  · rintro ⟨h1, h2⟩
    have hsp : set_profile environ args st.profile_list
        = .ok ["INFO: Using AWS environment variables for the current session"] [] := by
      simp [set_profile, hp, hprof, h1, h2]
    simp only [sweeper_init, hload, hsp, run_checks_d]
    split <;> rfl

/-- C7, witness. -/
theorem env_credentials_fallback_witness :
    ((sweeper_init fsPlain ⟨false, false, false⟩ denvEx ⟨none, none, none⟩ "T").exitCode = 1
      ∧ (sweeper_init fsPlain ⟨false, false, false⟩ denvEx ⟨none, none, none⟩ "T").trace = [])
    ∧ (sweeper_init fsPlain ⟨true, true, false⟩ denvEx ⟨none, none, none⟩ "T").exitCode = 0 :=
  ⟨(env_credentials_fallback fsPlain ⟨false, false, false⟩ denvEx ⟨none, none, none⟩ "T"
      [] initialState rfl rfl rfl).1 ⟨rfl, rfl⟩,
   (env_credentials_fallback fsPlain ⟨true, true, false⟩ denvEx ⟨none, none, none⟩ "T"
      [] initialState rfl rfl rfl).2 ⟨rfl, rfl⟩⟩

/-- C8: a `-p` value replaces any profile list loaded from the configuration
file, with the override warning emitted whenever configuration-file profiles
were present, and the sweep runs one full check cycle per named profile in
the given order. -/
theorem cli_profiles_override (env : Environ) (args : SPArgs) (pstr : String)
    (cfgProfiles : List String) (hp : args.p = some pstr)
    (hcreds : env.credsFileExists = true) (hcfg : cfgProfiles ≠ []) :
    set_profile env args cfgProfiles
        = .ok ["WARN: Overriding profiles found in config.yml"]
            (if pstr.data.contains ',' then pySplitComma pstr else [pstr])
      ∧ ∀ (denv : DispatchEnv) (excl regions : List String),
          run_checks_d denv false excl regions
              (if pstr.data.contains ',' then pySplitComma pstr else [pstr])
            = ((if pstr.data.contains ',' then pySplitComma pstr else [pstr]).flatMap
                (fun prof => (runProfile_d denv false excl regions prof).1), none) := by
  refine ⟨?_, fun denv excl regions => run_checks_d_cycles denv excl regions _⟩
  simp [set_profile, hp, hcreds, hcfg]

/-- C8, witness: `-p prod,staging` over config profiles `["cfg"]`. -/
theorem cli_profiles_override_witness :
    (if ("prod,staging").data.contains ',' then pySplitComma "prod,staging"
     else ["prod,staging"]) = ["prod", "staging"]
    ∧ set_profile ⟨true, true, true⟩ ⟨some "prod,staging", none, none⟩ ["cfg"]
        = .ok ["WARN: Overriding profiles found in config.yml"]
            (if ("prod,staging").data.contains ',' then pySplitComma "prod,staging"
             else ["prod,staging"])
    ∧ run_checks_d denvEx false [] ["r1"]
          (if ("prod,staging").data.contains ',' then pySplitComma "prod,staging"
           else ["prod,staging"])
        = ((if ("prod,staging").data.contains ',' then pySplitComma "prod,staging"
            else ["prod,staging"]).flatMap
              (fun prof => (runProfile_d denvEx false [] ["r1"] prof).1), none) :=
  ⟨by decide,
   (cli_profiles_override ⟨true, true, true⟩ ⟨some "prod,staging", none, none⟩ "prod,staging"
      ["cfg"] rfl rfl (by decide)).1,
   (cli_profiles_override ⟨true, true, true⟩ ⟨some "prod,staging", none, none⟩ "prod,staging"
      ["cfg"] rfl rfl (by decide)).2 denvEx [] ["r1"]⟩

/-- C10 counterexample: with `-o` and a provider that rejects the very first
query with a ClientError, the handler's `self.message += err` raises an
uncaught TypeError before the write: the output file is never produced and
the run dies with a non-zero status, so the file is not written exactly once
on every `-o` run. -/
theorem output_file_counterexample :
    (sweeper_init fsCfg ⟨false, false, true⟩ denvDenied
        ⟨some "prod", some "cfg.yml", some "out.txt"⟩ "T").fileLines = none
      ∧ (sweeper_init fsCfg ⟨false, false, true⟩ denvDenied
        ⟨some "prod", some "cfg.yml", some "out.txt"⟩ "T").exitCode = 1 :=
  ⟨rfl, rfl⟩

/-- C10 amended: with `-o`, provided no check's ClientError handler kills the
run (no uncaught TypeError from the buffered append — e.g. no query was
rejected), the output file receives exactly the in-memory buffer as it stands
when all checks have finished (the time line plus every report line of the
trace); the two closing lines are appended to the buffer after that write, so
the final buffer is the file contents plus the closing lines; and standard
output receives only the pre-run diagnostics and the INFO line — neither the
closing lines nor any report line. -/
theorem output_file_written_once (fs : String → Option FileContent) (environ : Environ)
    (denv : DispatchEnv) (args : SPArgs) (now o : String) (pr pr2 : List String)
    (st : ConfigState) (profiles : List String) (ho : args.o = some o)
    (hload : load_file fs initialState (locOf args) = .ok pr st)
    (hsp : set_profile environ args st.profile_list = .ok pr2 profiles)
    (hok : (run_checks_d denv true st.checks_to_exclude st.regions profiles).2 = none) :
    (sweeper_init fs environ denv args now).fileLines
        = some (s!"Current Time {now}"
            :: lineTexts (run_checks_d denv true st.checks_to_exclude st.regions profiles).1)
      ∧ (sweeper_init fs environ denv args now).finalMessage
        = (s!"Current Time {now}"
            :: lineTexts (run_checks_d denv true st.checks_to_exclude st.regions profiles).1)
          ++ closingLines
      ∧ (sweeper_init fs environ denv args now).printed
        = (match args.c with
           | some _ => []
           | none => ["WARN: Config option not provided. Using config.yml found in root"])
          ++ pr ++ pr2 ++ [s!"INFO: Sweeping to {o}"] := by
  rcases hrc : run_checks_d denv true st.checks_to_exclude st.regions profiles
    with ⟨trace, ab⟩
  rw [hrc] at hok
  dsimp only at hok
  subst hok
  have ho2 : args.o.isSome = true := by rw [ho]; rfl
  simp [sweeper_init, hload, hsp, ho, ho2, hrc]

/-- C10 amended, witness: a clean `-o` run (every query returns no items). -/
theorem output_file_written_once_witness :
    (run_checks_d denvEx true initialState.checks_to_exclude
        initialState.regions ["prod"]).2 = none
    ∧ (sweeper_init fsCfg ⟨false, false, true⟩ denvEx
        ⟨some "prod", some "cfg.yml", some "out.txt"⟩ "T").fileLines
      = some ("Current Time T"
          :: lineTexts (run_checks_d denvEx true initialState.checks_to_exclude
              initialState.regions ["prod"]).1)
    ∧ (sweeper_init fsCfg ⟨false, false, true⟩ denvEx
        ⟨some "prod", some "cfg.yml", some "out.txt"⟩ "T").finalMessage
      = ("Current Time T"
          :: lineTexts (run_checks_d denvEx true initialState.checks_to_exclude
              initialState.regions ["prod"]).1)
        ++ closingLines
    ∧ (sweeper_init fsCfg ⟨false, false, true⟩ denvEx
        ⟨some "prod", some "cfg.yml", some "out.txt"⟩ "T").printed
      = (match (some "cfg.yml" : Option String) with
         | some _ => []
         | none => ["WARN: Config option not provided. Using config.yml found in root"])
        ++ [] ++ [] ++ ["INFO: Sweeping to out.txt"] :=
  ⟨by decide,
   (output_file_written_once fsCfg ⟨false, false, true⟩ denvEx
      ⟨some "prod", some "cfg.yml", some "out.txt"⟩ "T" "out.txt" [] []
      initialState ["prod"] rfl rfl rfl (by decide)).1,
   (output_file_written_once fsCfg ⟨false, false, true⟩ denvEx
      ⟨some "prod", some "cfg.yml", some "out.txt"⟩ "T" "out.txt" [] []
      initialState ["prod"] rfl rfl rfl (by decide)).2.1,
   (output_file_written_once fsCfg ⟨false, false, true⟩ denvEx
      ⟨some "prod", some "cfg.yml", some "out.txt"⟩ "T" "out.txt" [] []
      initialState ["prod"] rfl rfl rfl (by decide)).2.2⟩

end Sweeper
